import Mathlib

/-!
Verification of the cqrs error taxonomy and the optimistic-concurrency commit
contract, shallowly embedded from the sources in src/error.rs and the module
contract in src/persist/mod.rs.
-/

namespace Cqrs

/-- Payload for an AggregateError.UserError: an optional machine code, an
optional human-readable message, and optional named string parameters
(the Rust HashMap of strings is embedded as an association list).
Embeds struct UserErrorPayload from src/error.rs. -/
structure UserErrorPayload where
  code : Option String
  message : Option String
  params : Option (List (String × String))
deriving DecidableEq

/-- The base error for the framework, embedding enum AggregateError from
src/error.rs: a user error carrying a value of the type parameter T, an
aggregate conflict carrying no data, or a technical error carrying a
message string. -/
inductive AggregateError (T : Type) where
  | UserError : T → AggregateError T
  | AggregateConflict : AggregateError T
  | TechnicalError : String → AggregateError T
deriving DecidableEq

/-- Embeds impl Display for UserErrorPayload: renders the message when
present, otherwise the fixed string "unknown error". -/
def UserErrorPayload.display (p : UserErrorPayload) : String :=
  match p.message with
  | none => "unknown error"
  | some message => message

/-- Embeds impl Display for AggregateError, parametrised by the Display
implementation displayT of the user-error type T (Rust requires
T to implement Error, hence Display). -/
def AggregateError.display {T : Type} (displayT : T → String) :
    AggregateError T → String
  | AggregateError.TechnicalError message => message
  | AggregateError.UserError message => displayT message
  | AggregateError.AggregateConflict => "aggregate conflict"

/-- Embeds AggregateError.new_user_error from src/error.rs: a convenience
constructor for a simple UserError with a user message. -/
def AggregateError.new_user_error (msg : String) :
    AggregateError UserErrorPayload :=
  AggregateError.UserError ⟨none, some msg, none⟩

/-- Embeds AggregateError.new_user_error_with_code from src/error.rs: a
convenience constructor for a simple UserError with a user message and an
error code. -/
def AggregateError.new_user_error_with_code (msg code : String) :
    AggregateError UserErrorPayload :=
  AggregateError.UserError ⟨some code, some msg, none⟩

/-- Embeds the private AggregateError.new_technical_error constructor from
src/error.rs. -/
def AggregateError.new_technical_error {T : Type} (msg : String) :
    AggregateError T :=
  AggregateError.TechnicalError msg

/-- The categories of a serde_json error, mirroring the variants of the
serde_json Category enum (Syntactic embeds the variant for malformed
JSON text). -/
inductive Category where
  | Syntactic : Category
  | Io : Category
  | Data : Category
  | Eof : Category
deriving DecidableEq

/-- A serde_json error at the boundary of the embedding, abstracted as its
category together with the string its Display implementation renders. -/
structure SerdeJsonError where
  category : Category
  description : String
deriving DecidableEq

/-- Embeds serde_json Error.classify, returning the category of the error. -/
def SerdeJsonError.classify (err : SerdeJsonError) : Category :=
  err.category

/-- Embeds serde_json Error.to_string, the rendered diagnostic description
of the error. -/
def SerdeJsonError.to_string (err : SerdeJsonError) : String :=
  err.description

/-- Embeds impl From of serde_json Error for AggregateError from
src/error.rs: classify the error and build a technical error, with the
fixed message "invalid json" for the malformed-JSON category and the
rendered description of the error for the other categories. -/
def AggregateError.from_serde_json {T : Type} (err : SerdeJsonError) :
    AggregateError T :=
  match err.classify with
  | Category.Syntactic =>
      AggregateError.new_technical_error "invalid json"
  | Category.Io | Category.Data | Category.Eof =>
      AggregateError.new_technical_error err.to_string

/-- Modelled from the spec: the persist_events operation of the Event
Repository, declared in src/persist/mod.rs but implemented outside src.
Appends n new events when the expected sequence matches the currently
persisted sequence, returning the advanced sequence, and fails with
AggregateConflict when another commit already advanced the sequence. -/
def persist_events (current expected n : Nat) :
    Except (AggregateError UserErrorPayload) Nat :=
  if expected = current then Except.ok (current + n)
  else Except.error AggregateError.AggregateConflict

/-- Modelled from the spec: concurrent commit attempts serialise at the
atomic storage boundary, so any interleaving is some serial order of the
attempts. Each attempt in turn runs persist_events for its event count
with the shared expected baseline against the current persisted sequence;
the result list records ok for a successful commit and the returned
AggregateError for a failed one. -/
def run_commit_attempts (expected : Nat) (current : Nat) :
    List Nat → List (Except (AggregateError UserErrorPayload) Unit)
  | [] => []
  | n :: rest =>
    match persist_events current expected n with
    | Except.ok s => Except.ok () :: run_commit_attempts expected s rest
    | Except.error e => Except.error e :: run_commit_attempts expected current rest

theorem run_commit_attempts_stale (expected current : Nat)
    (counts : List Nat) (h : expected ≠ current) :
    run_commit_attempts expected current counts =
      counts.map fun _ => Except.error AggregateError.AggregateConflict := by
  induction counts with
  | nil => rfl
  | cons n rest ih =>
      simp [run_commit_attempts, persist_events, h, ih]

/-- Claim C1: converting any serde_json error into an AggregateError
produces a TechnicalError variant and never a UserError or an
AggregateConflict, for every error type parameter T. -/
theorem from_serde_json_is_technical (T : Type) (err : SerdeJsonError) :
    ∃ msg : String,
      AggregateError.from_serde_json (T := T) err =
        AggregateError.TechnicalError msg := by
  cases err with
  | mk c d => cases c <;> exact ⟨_, rfl⟩

/-- Claim C2 counterexample: a malformed-JSON serde_json error carrying its
own description is converted to a TechnicalError with the fixed message
"invalid json", so its description is discarded. -/
theorem from_serde_json_discards_description :
    AggregateError.from_serde_json (T := UserErrorPayload)
        ⟨Category.Syntactic, "expected value at line 1 column 1"⟩ ≠
      AggregateError.TechnicalError "expected value at line 1 column 1" := by
  decide

/-- Claim C2 amended: for the Io, Data and Eof categories the resulting
TechnicalError carries the description string of the serde_json error
itself, while for the malformed-JSON category it carries the fixed
message "invalid json" and the description of the error is discarded. -/
theorem from_serde_json_message (T : Type) (err : SerdeJsonError) :
    AggregateError.from_serde_json (T := T) err =
      AggregateError.TechnicalError
        (if err.classify = Category.Syntactic then "invalid json"
         else err.to_string) := by
  cases err with
  | mk c d => cases c <;> rfl

/-- Claim C3: every value of AggregateError is exactly one of three kinds:
a UserError carrying a payload, an AggregateConflict carrying no data, or
a TechnicalError carrying a message string. -/
theorem aggregate_error_three_kinds (T : Type) (e : AggregateError T) :
    (∃ payload, e = AggregateError.UserError payload) ∨
      e = AggregateError.AggregateConflict ∨
      (∃ msg, e = AggregateError.TechnicalError msg) := by
  cases e with
  | UserError payload => exact Or.inl ⟨payload, rfl⟩
  | AggregateConflict => exact Or.inr (Or.inl rfl)
  | TechnicalError msg => exact Or.inr (Or.inr ⟨msg, rfl⟩)

/-- Claim C4: a UserErrorPayload consists of exactly an optional machine
code, an optional human message and an optional mapping of named string
parameters: every payload is built from three such optional fields. -/
theorem user_error_payload_fields (p : UserErrorPayload) :
    ∃ (code : Option String) (message : Option String)
      (params : Option (List (String × String))),
      p = UserErrorPayload.mk code message params :=
  ⟨p.code, p.message, p.params, rfl⟩

/-- Claim C5: a user error propagates unchanged to display: rendering
AggregateError.UserError p equals rendering p, and when the message of p
is some m the rendering is exactly m. -/
theorem user_error_display_propagates (p : UserErrorPayload) :
    AggregateError.display UserErrorPayload.display
        (AggregateError.UserError p) = p.display ∧
      ∀ m : String, p.message = some m → p.display = m := by
  refine ⟨rfl, fun m hm => ?_⟩
  simp [UserErrorPayload.display, hm]

/-- Claim C5 witness: at the concrete payload with message
"insufficient funds", the display of the wrapped user error equals the
display of the payload, which is that message. -/
theorem user_error_display_propagates_witness :
    AggregateError.display UserErrorPayload.display
        (AggregateError.UserError ⟨none, some "insufficient funds", none⟩) =
        UserErrorPayload.display ⟨none, some "insufficient funds", none⟩ ∧
      UserErrorPayload.display ⟨none, some "insufficient funds", none⟩ =
        "insufficient funds" :=
  ⟨(user_error_display_propagates
      ⟨none, some "insufficient funds", none⟩).1,
   (user_error_display_propagates
      ⟨none, some "insufficient funds", none⟩).2 "insufficient funds" rfl⟩

/-- Claim C6: modelled from the spec, among any number of serialised
concurrent commit attempts that all expect the baseline sequence S, the
first attempt succeeds and every other attempt fails with
AggregateConflict, so exactly one commit succeeds. -/
theorem concurrent_commits_exactly_one_success (S : Nat) (n : Nat)
    (rest : List Nat) (h : 0 < n) :
    run_commit_attempts S S (n :: rest) =
      Except.ok () ::
        (rest.map fun _ => Except.error AggregateError.AggregateConflict) := by
  have hne : S ≠ S + n := by omega
  simp [run_commit_attempts, persist_events,
    run_commit_attempts_stale S (S + n) rest hne]

/-- Claim C6 witness: three concurrent attempts with event counts one, two
and three, all expecting baseline sequence one; the first succeeds and the
other two fail with AggregateConflict. -/
theorem concurrent_commits_exactly_one_success_witness :
    run_commit_attempts 1 1 (1 :: [2, 3]) =
      Except.ok () ::
        ([2, 3].map fun _ => Except.error AggregateError.AggregateConflict) :=
  concurrent_commits_exactly_one_success 1 1 [2, 3] (by decide)

/-- Claim C7: displaying a UserErrorPayload whose message field is none
yields exactly the fixed string "unknown error", regardless of the code
and params fields. -/
theorem display_none_message_unknown (code : Option String)
    (params : Option (List (String × String))) :
    UserErrorPayload.display ⟨code, none, params⟩ = "unknown error" :=
  rfl

/-- Claim C8: new_user_error msg builds a UserError with payload of no
code, message some msg and no params; new_user_error_with_code msg code
builds a UserError with payload of code some code, message some msg and
no params. -/
theorem new_user_error_constructors (msg code : String) :
    AggregateError.new_user_error msg =
        AggregateError.UserError ⟨none, some msg, none⟩ ∧
      AggregateError.new_user_error_with_code msg code =
        AggregateError.UserError ⟨some code, some msg, none⟩ :=
  ⟨rfl, rfl⟩

/-- Claim C9: displaying AggregateError.AggregateConflict yields exactly
the string "aggregate conflict", for every error type parameter T and
every Display implementation of T. -/
theorem conflict_display (T : Type) (displayT : T → String) :
    AggregateError.display displayT AggregateError.AggregateConflict =
      "aggregate conflict" :=
  rfl

end Cqrs
